import Mathlib

/-!
ITK: numeric traits of RGB pixels, the binary shape-opening mini-pipeline and
the clone of a group spatial object.

A shallow embedding of

* `Modules/Core/Common/include/itkNumericTraitsRGBPixel.h`
* `Modules/Filtering/LabelMap/include/itkBinaryShapeOpeningImageFilter.hxx`
* `Modules/Core/SpatialObjects/include/itkGroupSpatialObject.hxx`

Static member functions become Lean functions, a function that may throw
returns `Except ExceptionObject _`, a member function that mutates `this`
returns the new state, and `unsigned int` values are natural numbers.
-/

namespace itk

/-! Exceptions -/

/-- An exception as raised by `itkExceptionMacro` and `itkGenericExceptionMacro`:
the text streamed into the macro is kept as the description. -/
structure ExceptionObject where
  description : String
deriving DecidableEq, Repr

/-! Numeric traits of the element type -/

/-- The members of `NumericTraits<T>` that `NumericTraits<RGBPixel<T>>` reads.
`itkNumericTraits.h` is not part of the sources at hand, so the record of the
element type is a parameter of everything below. -/
structure NumericTraits (T : Type) where
  max : T
  min : T
  NonpositiveMin : T
  ZeroValue : T
  OneValue : T
  IsPositive : T → Bool
  IsNonpositive : T → Bool
  IsNegative : T → Bool
  IsNonnegative : T → Bool

/-! RGB pixels -/

/-- An `RGBPixel<T>`: a fixed array of exactly three components of type `T`
(red, green, blue, at indices 0, 1, 2). -/
structure RGBPixel (T : Type) where
  red : T
  green : T
  blue : T
deriving DecidableEq, Repr

namespace RGBPixel

variable {T : Type}

/-- Component access `v[i]` for `i < 3`. -/
def get (v : RGBPixel T) (i : Fin 3) : T :=
  match i with
  | ⟨0, _⟩ => v.red
  | ⟨1, _⟩ => v.green
  | ⟨_, _⟩ => v.blue

/-- Modelled from the spec: `FixedArray::Fill` lives in a header that is not
part of the sources; per the spec a fill writes the given value into every
component ("zero-fill"), leaving the arity untouched. -/
def Fill (_m : RGBPixel T) (value : T) : RGBPixel T :=
  { red := value, green := value, blue := value }

end RGBPixel

/-- Modelled from the spec: `MakeFilled<RGBPixel<T>>` lives in a header that is
not part of the sources; per the spec it is "the structured packing" of one
element value "in every component". -/
def MakeFilled {T : Type} (value : T) : RGBPixel T :=
  { red := value, green := value, blue := value }

/-! `NumericTraits<RGBPixel<T>>` -/

namespace NumericTraitsRGBPixel

variable {T L : Type}

/-- The overload `max(const Self &)`. -/
def maxOf (traits : NumericTraits T) (_v : RGBPixel T) : RGBPixel T :=
  MakeFilled traits.max

/-- The overload `min(const Self &)`. -/
def minOf (traits : NumericTraits T) (_v : RGBPixel T) : RGBPixel T :=
  MakeFilled traits.min

/-- The overload `max()`. -/
def max (traits : NumericTraits T) : RGBPixel T :=
  MakeFilled traits.max

/-- The overload `min()`. -/
def min (traits : NumericTraits T) : RGBPixel T :=
  MakeFilled traits.min

/-- The overload `NonpositiveMin()`. -/
def NonpositiveMin (traits : NumericTraits T) : RGBPixel T :=
  MakeFilled traits.NonpositiveMin

/-- The overload `ZeroValue()`. -/
def ZeroValue (traits : NumericTraits T) : RGBPixel T :=
  MakeFilled traits.ZeroValue

/-- The overload `OneValue()`. -/
def OneValue (traits : NumericTraits T) : RGBPixel T :=
  MakeFilled traits.OneValue

/-- The overload `NonpositiveMin(const Self &)`. -/
def NonpositiveMinOf (traits : NumericTraits T) (_v : RGBPixel T) : RGBPixel T :=
  NonpositiveMin traits

/-- The overload `ZeroValue(const Self &)`. -/
def ZeroValueOf (traits : NumericTraits T) (_v : RGBPixel T) : RGBPixel T :=
  ZeroValue traits

/-- The overload `OneValue(const Self &)`. -/
def OneValueOf (traits : NumericTraits T) (_v : RGBPixel T) : RGBPixel T :=
  OneValue traits

/-- `IsPositive(Self val)`. The luminance type `L`, its traits and
`RGBPixel::GetLuminance` come from headers outside the sources and are
parameters. -/
def IsPositive (lumTraits : NumericTraits L) (GetLuminance : RGBPixel T → L)
    (val : RGBPixel T) : Bool :=
  lumTraits.IsPositive (GetLuminance val)

/-- `IsNonpositive(Self val)`. -/
def IsNonpositive (lumTraits : NumericTraits L) (GetLuminance : RGBPixel T → L)
    (val : RGBPixel T) : Bool :=
  lumTraits.IsNonpositive (GetLuminance val)

/-- `IsNegative(Self val)`. -/
def IsNegative (lumTraits : NumericTraits L) (GetLuminance : RGBPixel T → L)
    (val : RGBPixel T) : Bool :=
  lumTraits.IsNegative (GetLuminance val)

/-- `IsNonnegative(Self val)`. -/
def IsNonnegative (lumTraits : NumericTraits L) (GetLuminance : RGBPixel T → L)
    (val : RGBPixel T) : Bool :=
  lumTraits.IsNonnegative (GetLuminance val)

/-- The exception `SetLength` raises for a length other than 3 (the spec's
`SizeMismatch`). -/
def SizeMismatch : ExceptionObject :=
  { description := "Cannot set the size of a RGBPixel to anything other than 3." }

/-- `SetLength(RGBPixel<T> & m, const unsigned int s)`: the result is the new
content of `m`, or the exception thrown. -/
def SetLength (traits : NumericTraits T) (m : RGBPixel T) (s : Nat) :
    Except ExceptionObject (RGBPixel T) :=
  if s != 3 then
    Except.error SizeMismatch
  else
    Except.ok (m.Fill traits.ZeroValue)

/-- The content of the pixel variable `m` after a call `SetLength(m, s)`,
whether it returned or threw: the throw comes before the fill, so a failed call
leaves `m` as it was. -/
def afterSetLength (traits : NumericTraits T) (m : RGBPixel T) (s : Nat) : RGBPixel T :=
  match SetLength traits m s with
  | Except.ok filled => filled
  | Except.error _ => m

/-- The overload `GetLength(const RGBPixel<T> &)`. -/
def GetLengthOf (_m : RGBPixel T) : Nat := 3

/-- The overload `GetLength()`. -/
def GetLength : Nat := 3

end NumericTraitsRGBPixel

/-! Regions and images -/

/-- An `ImageRegion`: start index and size along each axis. -/
structure ImageRegion where
  index : List Int
  size : List Nat
deriving DecidableEq, Repr

/-- An image as the pipeline sees it: its three tracked regions and its pixel
buffer. -/
structure Image (P : Type) where
  largestPossibleRegion : ImageRegion
  bufferedRegion : ImageRegion
  requestedRegion : ImageRegion
  buffer : List P
deriving DecidableEq, Repr

namespace Image

variable {P : Type}

/-- The getter `GetLargestPossibleRegion()`. -/
def GetLargestPossibleRegion (img : Image P) : ImageRegion :=
  img.largestPossibleRegion

/-- The getter `GetRequestedRegion()`. -/
def GetRequestedRegion (img : Image P) : ImageRegion :=
  img.requestedRegion

/-- Modelled from the spec: `ImageBase::SetRequestedRegion` is outside the
sources; per the spec the requested region is one of the three regions an image
tracks, and setting it replaces that region only. -/
def SetRequestedRegion (img : Image P) (region : ImageRegion) : Image P :=
  { img with requestedRegion := region }

end Image

/-! The filter `BinaryShapeOpeningImageFilter` -/

/-- The type `AttributeType` of `LabelObjectType`: an `unsigned int` code. -/
abbrev AttributeType : Type := Nat

/-- The attribute codes of `LabelObjectType` that the filter names. Their
numeric values are declared outside the sources, so they are a parameter. -/
structure ShapeLabelObjectAttributes where
  NUMBER_OF_PIXELS : AttributeType
  PERIMETER : AttributeType
  ROUNDNESS : AttributeType
  FERET_DIAMETER : AttributeType
deriving DecidableEq, Repr

/-- The state the filter inherits from `ImageToImageFilter`: its input (a
pointer that may be null), its output and its number of work units. -/
structure ImageToImageFilter (P : Type) where
  input : Option (Image P)
  output : Image P
  numberOfWorkUnits : Nat
deriving DecidableEq, Repr

/-- The filter `BinaryShapeOpeningImageFilter<TInputImage>` with pixel type
`P`. The `double` member `m_Lambda` is kept as the exact rational it denotes. -/
structure BinaryShapeOpeningImageFilter (P : Type) extends ImageToImageFilter P where
  m_FullyConnected : Bool
  m_BackgroundValue : P
  m_ForegroundValue : P
  m_Lambda : ℚ
  m_ReverseOrdering : Bool
  m_Attribute : AttributeType
deriving DecidableEq

/-- Modelled from the spec: `ImageToImageFilter::GenerateInputRequestedRegion`
is outside the sources; per the spec a node by default asks of its input the
region "it needs ... to satisfy its own requested output region", which for a
filter whose input and output have the same image type is the output's
requested region itself. -/
def ImageToImageFilter.GenerateInputRequestedRegion {P : Type}
    (self : ImageToImageFilter P) : ImageToImageFilter P :=
  match self.input with
  | some input => { self with input := some (input.SetRequestedRegion self.output.GetRequestedRegion) }
  | none => self

namespace BinaryShapeOpeningImageFilter

variable {P : Type}

/-- The constructor `BinaryShapeOpeningImageFilter()`: the six assignments to
the members, on top of the state `base` that the superclass constructor
leaves. -/
def BinaryShapeOpeningImageFilter (traits : NumericTraits P) (attrs : ShapeLabelObjectAttributes)
    (base : ImageToImageFilter P) : itk.BinaryShapeOpeningImageFilter P :=
  { base with
    m_BackgroundValue := traits.NonpositiveMin
    m_ForegroundValue := traits.max
    m_FullyConnected := false
    m_ReverseOrdering := false
    m_Lambda := 0
    m_Attribute := attrs.NUMBER_OF_PIXELS }

/-- The member function `GenerateInputRequestedRegion()`. -/
def GenerateInputRequestedRegion (self : itk.BinaryShapeOpeningImageFilter P) :
    itk.BinaryShapeOpeningImageFilter P :=
  -- call the superclass' implementation of this method
  let self1 := { self with
    toImageToImageFilter := self.toImageToImageFilter.GenerateInputRequestedRegion }
  -- We need all the input.
  match self1.input with
  | some input =>
      { self1 with input := some (input.SetRequestedRegion input.GetLargestPossibleRegion) }
  | none => self1

/-- The member function `EnlargeOutputRequestedRegion(DataObject *)`. -/
def EnlargeOutputRequestedRegion (self : itk.BinaryShapeOpeningImageFilter P) :
    itk.BinaryShapeOpeningImageFilter P :=
  { self with output := self.output.SetRequestedRegion self.output.GetLargestPossibleRegion }

end BinaryShapeOpeningImageFilter

/-! Single-precision weights -/

/-- A finite non-negative `float` (IEEE binary32) value in the normal range,
`mantissa * 2 ^ exponent`, with `2 ^ 23 ≤ mantissa < 2 ^ 24` unless the value is
zero (mantissa and exponent both zero), so that equal values are equal
records. -/
structure Float32 where
  mantissa : Nat
  exponent : Int
deriving DecidableEq, Repr

namespace Float32

/-- The number of binary digits of `n`, with `fuel` bounding the digits
looked at. -/
def bitLengthAux : Nat → Nat → Nat
  | 0, _ => 0
  | fuel + 1, n => if n = 0 then 0 else bitLengthAux fuel (n / 2) + 1

/-- The number of binary digits of `n`. -/
def bitLength (n : Nat) : Nat := bitLengthAux n n

/-- The rational a binary32 value denotes. -/
def toRat (x : Float32) : ℚ := (x.mantissa : ℚ) * (2 : ℚ) ^ x.exponent

/-- The binary32 value nearest to `n / d` (round to nearest, ties to even), as
C++ gives a decimal constant with suffix `f` and the result of a `float`
operation; normal range only. -/
def ofRatio (n d : Nat) : Float32 :=
  if n = 0 ∨ d = 0 then
    { mantissa := 0, exponent := 0 }
  else
    let e0 : Int := (bitLength n : Int) - (bitLength d : Int)
    -- the exponent of the leading binary digit of n / d
    let e : Int := if d * 2 ^ e0.toNat ≤ n * 2 ^ (-e0).toNat then e0 else e0 - 1
    let s : Int := 23 - e
    let num : Nat := n * 2 ^ s.toNat
    let den : Nat := d * 2 ^ (-s).toNat
    let q : Nat := num / den
    let r : Nat := num % den
    let m : Nat :=
      if 2 * r < den then q
      else if den < 2 * r then q + 1
      else if q % 2 = 0 then q else q + 1
    if m = 2 ^ 24 then
      { mantissa := 2 ^ 23, exponent := e - 22 }
    else
      { mantissa := m, exponent := e - 23 }

/-- The `float` sum `x + y`: the exact sum, rounded. -/
def add (x y : Float32) : Float32 :=
  let e : Int := if x.exponent ≤ y.exponent then x.exponent else y.exponent
  let total : Nat :=
    x.mantissa * 2 ^ (x.exponent - e).toNat + y.mantissa * 2 ^ (y.exponent - e).toNat
  ofRatio (total * 2 ^ e.toNat) (2 ^ (-e).toNat)

/-- The constant `0.0f`. -/
def zero : Float32 := { mantissa := 0, exponent := 0 }

/-- The constant `1.0f`. -/
def one : Float32 := ofRatio 1 1

end Float32

/-! The progress accumulator -/

/-- The four internal filters of the mini-pipeline, by the name of the local
variable that holds each in `GenerateData`. -/
inductive InternalFilter where
  | labelizer
  | valuator
  | opening
  | binarizer
deriving DecidableEq, Repr

/-- One registration with the accumulator: the filter and its weight. -/
structure FilterRecord where
  filter : InternalFilter
  weight : Float32
deriving DecidableEq, Repr

/-- A `ProgressAccumulator`: whether a mini-pipeline filter is attached, and
the registrations in the order they were made. -/
structure ProgressAccumulator where
  hasMiniPipelineFilter : Bool
  filterRecords : List FilterRecord
deriving DecidableEq, Repr

namespace ProgressAccumulator

/-- Modelled from the spec: `ProgressAccumulator::SetMiniPipelineFilter` is
outside the sources; it attaches the composite whose progress is reported. -/
def SetMiniPipelineFilter (acc : ProgressAccumulator) : ProgressAccumulator :=
  { acc with hasMiniPipelineFilter := true }

/-- Modelled from the spec: `ProgressAccumulator::RegisterInternalFilter` is
outside the sources; per the spec "the composite registers each internal filter
together with a weight", so a call adds one registration after those already
made. -/
def RegisterInternalFilter (acc : ProgressAccumulator) (filter : InternalFilter)
    (weight : Float32) : ProgressAccumulator :=
  { acc with filterRecords := acc.filterRecords ++ [{ filter := filter, weight := weight }] }

/-- The progress the accumulator reports once every registered filter is done
(each at progress 1): per the spec the sum of the weights, added up in `float`
in the order of registration. -/
def completedProgress (acc : ProgressAccumulator) : Float32 :=
  (acc.filterRecords.map FilterRecord.weight).foldl Float32.add Float32.zero

end ProgressAccumulator

/-! The internal filters of the mini-pipeline

Their classes are declared outside the sources. Each is kept as the record of
the members that `GenerateData` sets; a setter stores its argument in the member
it names, and a freshly created filter is a parameter. -/

/-- The type `LabelizerType`, a `BinaryImageToLabelMapFilter`. -/
structure LabelizerType (P : Type) where
  input : Option (Image P)
  m_InputForegroundValue : P
  m_OutputBackgroundValue : P
  m_FullyConnected : Bool
  numberOfWorkUnits : Nat
deriving DecidableEq, Repr

/-- The type `LabelObjectValuatorType`, a `ShapeLabelMapFilter`. Its input is
the output of the internal filter named. -/
structure LabelObjectValuatorType where
  input : Option InternalFilter
  m_ComputePerimeter : Bool
  m_ComputeFeretDiameter : Bool
  numberOfWorkUnits : Nat
deriving DecidableEq, Repr

/-- The type `OpeningType`, a `ShapeOpeningLabelMapFilter`. -/
structure OpeningType where
  input : Option InternalFilter
  m_Lambda : ℚ
  m_ReverseOrdering : Bool
  m_Attribute : AttributeType
  numberOfWorkUnits : Nat
deriving DecidableEq

/-- The type `BinarizerType`, a `LabelMapToBinaryImageFilter`. -/
structure BinarizerType (P : Type) where
  input : Option InternalFilter
  m_ForegroundValue : P
  m_BackgroundValue : P
  backgroundImage : Option (Image P)
  numberOfWorkUnits : Nat
  output : Image P
deriving DecidableEq, Repr

namespace LabelizerType

variable {P : Type}

/-- The setter `SetInput`. -/
def SetInput (self : LabelizerType P) (input : Option (Image P)) : LabelizerType P :=
  { self with input := input }

/-- The setter `SetInputForegroundValue`. -/
def SetInputForegroundValue (self : LabelizerType P) (v : P) : LabelizerType P :=
  { self with m_InputForegroundValue := v }

/-- The setter `SetOutputBackgroundValue`. -/
def SetOutputBackgroundValue (self : LabelizerType P) (v : P) : LabelizerType P :=
  { self with m_OutputBackgroundValue := v }

/-- The setter `SetFullyConnected`. -/
def SetFullyConnected (self : LabelizerType P) (v : Bool) : LabelizerType P :=
  { self with m_FullyConnected := v }

/-- The setter `SetNumberOfWorkUnits`. -/
def SetNumberOfWorkUnits (self : LabelizerType P) (n : Nat) : LabelizerType P :=
  { self with numberOfWorkUnits := n }

end LabelizerType

namespace LabelObjectValuatorType

/-- The setter `SetInput`, given the internal filter whose output is read. -/
def SetInput (self : LabelObjectValuatorType) (source : InternalFilter) :
    LabelObjectValuatorType :=
  { self with input := some source }

/-- The setter `SetNumberOfWorkUnits`. -/
def SetNumberOfWorkUnits (self : LabelObjectValuatorType) (n : Nat) : LabelObjectValuatorType :=
  { self with numberOfWorkUnits := n }

/-- The setter `SetComputePerimeter`. -/
def SetComputePerimeter (self : LabelObjectValuatorType) (v : Bool) : LabelObjectValuatorType :=
  { self with m_ComputePerimeter := v }

/-- The setter `SetComputeFeretDiameter`. -/
def SetComputeFeretDiameter (self : LabelObjectValuatorType) (v : Bool) :
    LabelObjectValuatorType :=
  { self with m_ComputeFeretDiameter := v }

end LabelObjectValuatorType

namespace OpeningType

/-- The setter `SetInput`, given the internal filter whose output is read. -/
def SetInput (self : OpeningType) (source : InternalFilter) : OpeningType :=
  { self with input := some source }

/-- The setter `SetLambda`. -/
def SetLambda (self : OpeningType) (v : ℚ) : OpeningType :=
  { self with m_Lambda := v }

/-- The setter `SetReverseOrdering`. -/
def SetReverseOrdering (self : OpeningType) (v : Bool) : OpeningType :=
  { self with m_ReverseOrdering := v }

/-- The setter `SetAttribute`. -/
def SetAttribute (self : OpeningType) (v : AttributeType) : OpeningType :=
  { self with m_Attribute := v }

/-- The setter `SetNumberOfWorkUnits`. -/
def SetNumberOfWorkUnits (self : OpeningType) (n : Nat) : OpeningType :=
  { self with numberOfWorkUnits := n }

end OpeningType

namespace BinarizerType

variable {P : Type}

/-- The setter `SetInput`, given the internal filter whose output is read. -/
def SetInput (self : BinarizerType P) (source : InternalFilter) : BinarizerType P :=
  { self with input := some source }

/-- The setter `SetForegroundValue`. -/
def SetForegroundValue (self : BinarizerType P) (v : P) : BinarizerType P :=
  { self with m_ForegroundValue := v }

/-- The setter `SetBackgroundValue`. -/
def SetBackgroundValue (self : BinarizerType P) (v : P) : BinarizerType P :=
  { self with m_BackgroundValue := v }

/-- The setter `SetBackgroundImage`. -/
def SetBackgroundImage (self : BinarizerType P) (img : Option (Image P)) : BinarizerType P :=
  { self with backgroundImage := img }

/-- The setter `SetNumberOfWorkUnits`. -/
def SetNumberOfWorkUnits (self : BinarizerType P) (n : Nat) : BinarizerType P :=
  { self with numberOfWorkUnits := n }

/-- Modelled from the spec: `ProcessObject::GraftOutput` is outside the
sources; per the spec a graft makes the given image, its regions and its
buffer, the output of the filter. -/
def GraftOutput (self : BinarizerType P) (img : Image P) : BinarizerType P :=
  { self with output := img }

end BinarizerType

/-! The opening stage -/

/-- A label object of a label map: its label, the pixels it covers (as offsets
into the image buffer) and the value the valuator computed for each attribute
code. -/
structure ShapeLabelObject where
  label : Nat
  pixels : List Nat
  attributeValue : AttributeType → ℚ

namespace OpeningType

/-- Modelled from the spec: `ShapeOpeningLabelMapFilter` is outside the
sources; per the spec "the comparison direction is controlled by
`reverseOrdering` (normally keep `attribute ≥ lambda`; reversed keeps
`attribute ≤ lambda`)". -/
def keeps (self : OpeningType) (obj : ShapeLabelObject) : Bool :=
  if self.m_ReverseOrdering then
    decide (obj.attributeValue self.m_Attribute ≤ self.m_Lambda)
  else
    decide (self.m_Lambda ≤ obj.attributeValue self.m_Attribute)

/-- Modelled from the spec: `ShapeOpeningLabelMapFilter::GenerateData` is
outside the sources; per the spec the stage discards "every label object whose
selected attribute value fails the threshold test against `lambda`" and hands
the others on, in their order. -/
def GenerateData (self : OpeningType) (labelMap : List ShapeLabelObject) :
    List ShapeLabelObject :=
  labelMap.filter self.keeps

end OpeningType

/-! The mini-pipeline of `GenerateData` -/

/-- The local objects of `GenerateData`: the accumulator and the four internal
filters. -/
structure MiniPipeline (P : Type) where
  progress : ProgressAccumulator
  labelizer : LabelizerType P
  valuator : LabelObjectValuatorType
  opening : OpeningType
  binarizer : BinarizerType P

/-- The bodies of the stages that the spec leaves to external collaborators,
as parameters: the labelizer's connected-component labelling of its input, the
valuator's computation of the attributes of each label object, and what the
binarizer writes into a pixel that no label object it received covers (made
from its background value and background image). -/
structure StageBodies (P : Type) where
  labelize : LabelizerType P → List ShapeLabelObject
  valuate : LabelObjectValuatorType → List ShapeLabelObject → List ShapeLabelObject
  backgroundFill : BinarizerType P → Nat → P

/-- Modelled from the spec: `LabelMapToBinaryImageFilter::GenerateData` is
outside the sources; per the spec the binarizer does "rewrite surviving label
objects to `foregroundValue` and everything else" to the background fill. It
writes every pixel of its output image: the foreground value where a label
object of the label map it received covers the pixel, `fill` elsewhere. -/
def BinarizerType.GenerateData {P : Type} (self : BinarizerType P) (fill : Nat → P)
    (labelMap : List ShapeLabelObject) : Image P :=
  { self.output with
    buffer := (List.range self.output.buffer.length).map fun k =>
      if labelMap.any (fun obj => decide (k ∈ obj.pixels)) then self.m_ForegroundValue
      else fill k }

namespace MiniPipeline

variable {P : Type}

/-- Modelled from the spec: the label objects that reach the binarizer when the
mini-pipeline runs. Per the spec the stages run in sequence, "labelizer,
attribute valuator, attribute-threshold opening, re-binarizer", each on the
output of the one before. -/
def binarizedObjects (bodies : StageBodies P) (pipeline : MiniPipeline P) :
    List ShapeLabelObject :=
  pipeline.opening.GenerateData
    (bodies.valuate pipeline.valuator (bodies.labelize pipeline.labelizer))

/-- Modelled from the spec: the execution `binarizer->Update()` of the
mini-pipeline, which runs the four stages in sequence; the result is the image
the binarizer's output holds afterwards. -/
def Update (bodies : StageBodies P) (pipeline : MiniPipeline P) : Image P :=
  pipeline.binarizer.GenerateData (bodies.backgroundFill pipeline.binarizer)
    (binarizedObjects bodies pipeline)

end MiniPipeline

/-- The operations `GenerateData` calls that are defined outside the sources,
as parameters: `AllocateOutputs`, as what it makes of the output image, and the
execution `binarizer->Update()` of the configured mini-pipeline, as the image
the binarizer's output holds afterwards. -/
structure Collaborators (P : Type) where
  AllocateOutputs : Image P → Image P
  Update : MiniPipeline P → Image P

namespace BinaryShapeOpeningImageFilter

variable {P : Type}

/-- Modelled from the spec: `ProcessObject::GraftOutput` is outside the
sources; per the spec a graft makes the given image, its regions and its
buffer, the output of the filter. -/
def GraftOutput (self : itk.BinaryShapeOpeningImageFilter P) (img : Image P) :
    itk.BinaryShapeOpeningImageFilter P :=
  { self with output := img }

/-- The member function `GenerateData()`. `fresh` holds the objects the five
calls of `New()` return. The result is the filter afterwards, together with the
mini-pipeline as configured and run. -/
def GenerateData (attrs : ShapeLabelObjectAttributes) (env : Collaborators P)
    (fresh : MiniPipeline P) (self : itk.BinaryShapeOpeningImageFilter P) :
    itk.BinaryShapeOpeningImageFilter P × MiniPipeline P :=
  -- Create a process accumulator for tracking the progress of this minipipeline
  let progress := fresh.progress
  let progress := progress.SetMiniPipelineFilter
  -- Allocate the output
  let self : itk.BinaryShapeOpeningImageFilter P :=
    { self with output := env.AllocateOutputs self.output }
  let labelizer := fresh.labelizer
  let labelizer := labelizer.SetInput self.input
  let labelizer := labelizer.SetInputForegroundValue self.m_ForegroundValue
  let labelizer := labelizer.SetOutputBackgroundValue self.m_BackgroundValue
  let labelizer := labelizer.SetFullyConnected self.m_FullyConnected
  let labelizer := labelizer.SetNumberOfWorkUnits self.numberOfWorkUnits
  let progress := progress.RegisterInternalFilter InternalFilter.labelizer (Float32.ofRatio 3 10)
  let valuator := fresh.valuator
  let valuator := valuator.SetInput InternalFilter.labelizer
  let valuator := valuator.SetNumberOfWorkUnits self.numberOfWorkUnits
  let valuator :=
    if self.m_Attribute != attrs.PERIMETER && self.m_Attribute != attrs.ROUNDNESS then
      valuator.SetComputePerimeter false
    else valuator
  let valuator :=
    if self.m_Attribute == attrs.FERET_DIAMETER then
      valuator.SetComputeFeretDiameter true
    else valuator
  let progress := progress.RegisterInternalFilter InternalFilter.valuator (Float32.ofRatio 3 10)
  let opening := fresh.opening
  let opening := opening.SetInput InternalFilter.valuator
  let opening := opening.SetLambda self.m_Lambda
  let opening := opening.SetReverseOrdering self.m_ReverseOrdering
  let opening := opening.SetAttribute self.m_Attribute
  let opening := opening.SetNumberOfWorkUnits self.numberOfWorkUnits
  let progress := progress.RegisterInternalFilter InternalFilter.opening (Float32.ofRatio 2 10)
  let binarizer := fresh.binarizer
  let binarizer := binarizer.SetInput InternalFilter.opening
  let binarizer := binarizer.SetForegroundValue self.m_ForegroundValue
  let binarizer := binarizer.SetBackgroundValue self.m_BackgroundValue
  let binarizer := binarizer.SetBackgroundImage self.input
  let binarizer := binarizer.SetNumberOfWorkUnits self.numberOfWorkUnits
  let progress := progress.RegisterInternalFilter InternalFilter.binarizer (Float32.ofRatio 2 10)
  let binarizer := binarizer.GraftOutput self.output
  -- binarizer->Update()
  let configured : MiniPipeline P :=
    { progress := progress, labelizer := labelizer, valuator := valuator,
      opening := opening, binarizer := binarizer }
  let binarizer : BinarizerType P := { binarizer with output := env.Update configured }
  let self := self.GraftOutput binarizer.output
  (self, { configured with binarizer := binarizer })

end BinaryShapeOpeningImageFilter

/-! Group spatial objects -/

/-- A class of the object hierarchy: its name and its template arguments. -/
structure ClassId where
  name : String
  templateArguments : List Nat
deriving DecidableEq, Repr

/-- A `LightObject` as run-time type information shows it: which object it is,
what `GetNameOfClass()` returns for it, and its dynamic class together with all
the base classes of that class. -/
structure LightObject where
  address : Nat
  nameOfClass : String
  classes : List ClassId
deriving DecidableEq, Repr

/-- A `LightObject::Pointer`: a smart pointer, which may be null. -/
abbrev LightObject.Pointer : Type := Option LightObject

namespace GroupSpatialObject

/-- The class `Self` of `GroupSpatialObject<TDimension>`. -/
def Self (TDimension : Nat) : ClassId :=
  { name := "GroupSpatialObject", templateArguments := [TDimension] }

/-- The expression `dynamic_cast<Self *>(loPtr.GetPointer())`: the object
itself when the pointer is not null and the object is of class `Self` or of a
class derived from it, null otherwise. -/
def dynamic_cast (TDimension : Nat) (loPtr : LightObject.Pointer) : LightObject.Pointer :=
  match loPtr with
  | none => none
  | some obj => if Self TDimension ∈ obj.classes then some obj else none

/-- The exception `InternalClone` raises when the downcast fails (the spec's
`DowncastFailure`). -/
def DowncastFailure (this : LightObject) : ExceptionObject :=
  { description := "downcast to type " ++ this.nameOfClass ++ " failed." }

/-- The member function `InternalClone()`. `Superclass_InternalClone` is the
member function of the superclass, which is outside the sources. -/
def InternalClone (TDimension : Nat)
    (Superclass_InternalClone : LightObject → Except ExceptionObject LightObject.Pointer)
    (this : LightObject) : Except ExceptionObject LightObject.Pointer :=
  match Superclass_InternalClone this with
  | Except.error e => Except.error e
  | Except.ok loPtr =>
      let rval := dynamic_cast TDimension loPtr
      if rval.isNone then
        Except.error (DowncastFailure this)
      else
        Except.ok loPtr

end GroupSpatialObject

/-! Concrete inputs -/

namespace Example

/-- Traits of an 8-bit unsigned pixel type, held in `Nat`. -/
def traits : NumericTraits Nat :=
  { max := 255, min := 0, NonpositiveMin := 0, ZeroValue := 0, OneValue := 1
    IsPositive := fun x => decide (0 < x)
    IsNonpositive := fun x => decide (x = 0)
    IsNegative := fun _ => false
    IsNonnegative := fun _ => true }

/-- Four distinct attribute codes. -/
def attrs : ShapeLabelObjectAttributes :=
  { NUMBER_OF_PIXELS := 100, PERIMETER := 112, ROUNDNESS := 113, FERET_DIAMETER := 108 }

/-- A 4 x 4 input image of which the region of size 2 x 2 at index (1, 1) is
requested. -/
def inputImage : Image Nat :=
  { largestPossibleRegion := { index := [0, 0], size := [4, 4] }
    bufferedRegion := { index := [0, 0], size := [4, 4] }
    requestedRegion := { index := [1, 1], size := [2, 2] }
    buffer := List.replicate 16 255 }

/-- An output image that is not yet allocated. -/
def outputImage : Image Nat :=
  { largestPossibleRegion := { index := [0, 0], size := [4, 4] }
    bufferedRegion := { index := [0, 0], size := [0, 0] }
    requestedRegion := { index := [0, 0], size := [4, 4] }
    buffer := [] }

/-- A freshly constructed filter with `inputImage` as its input. -/
def filter : BinaryShapeOpeningImageFilter Nat :=
  BinaryShapeOpeningImageFilter.BinaryShapeOpeningImageFilter traits attrs
    { input := some inputImage, output := outputImage, numberOfWorkUnits := 4 }

/-- Collaborators: allocation buffers the requested region, and the run leaves
the binarizer's output image as it is. -/
def env : Collaborators Nat :=
  { AllocateOutputs := fun img => { img with bufferedRegion := img.requestedRegion }
    Update := fun pipeline => pipeline.binarizer.output }

/-- Freshly created internal filters and accumulator: nothing registered,
nothing connected, perimeter on and Feret diameter off in the valuator. -/
def fresh : MiniPipeline Nat :=
  { progress := { hasMiniPipelineFilter := false, filterRecords := [] }
    labelizer :=
      { input := none, m_InputForegroundValue := 255, m_OutputBackgroundValue := 0,
        m_FullyConnected := false, numberOfWorkUnits := 1 }
    valuator :=
      { input := none, m_ComputePerimeter := true, m_ComputeFeretDiameter := false,
        numberOfWorkUnits := 1 }
    opening :=
      { input := none, m_Lambda := 0, m_ReverseOrdering := false, m_Attribute := 100,
        numberOfWorkUnits := 1 }
    binarizer :=
      { input := none, m_ForegroundValue := 255, m_BackgroundValue := 0,
        backgroundImage := none, numberOfWorkUnits := 1, output := outputImage } }

/-- A label object of 8 pixels, the first two rows of the 4 x 4 image, with
label 1. -/
def objectOfSize8 : ShapeLabelObject :=
  { label := 1, pixels := [0, 1, 2, 3, 4, 5, 6, 7]
    attributeValue := fun a => if a = attrs.NUMBER_OF_PIXELS then 8 else 0 }

/-- A label object of 3 pixels, the end of the last row, with label 2. -/
def objectOfSize3 : ShapeLabelObject :=
  { label := 2, pixels := [13, 14, 15]
    attributeValue := fun a => if a = attrs.NUMBER_OF_PIXELS then 3 else 0 }

/-- Stage bodies for the scenario: the labelizer finds the objects of size 8
and of size 3, the valuator hands them on with their pixel counts, and the
binarizer writes its background value outside the objects it received. -/
def bodies : StageBodies Nat :=
  { labelize := fun _ =>
      [{ objectOfSize8 with attributeValue := fun _ => 0 },
       { objectOfSize3 with attributeValue := fun _ => 0 }]
    valuate := fun _ labelMap =>
      labelMap.map fun obj =>
        { obj with
          attributeValue := fun a => if a = attrs.NUMBER_OF_PIXELS then obj.pixels.length else 0 }
    backgroundFill := fun binarizer _ => binarizer.m_BackgroundValue }

/-- A group spatial object of dimension 3. -/
def group : LightObject :=
  { address := 1, nameOfClass := "GroupSpatialObject"
    classes :=
      [{ name := "GroupSpatialObject", templateArguments := [3] },
       { name := "SpatialObject", templateArguments := [3] },
       { name := "Object", templateArguments := [] },
       { name := "LightObject", templateArguments := [] }] }

/-- A clone of `group` of the right class, as a second object. -/
def groupClone : LightObject :=
  { group with address := 2 }

/-- An object that is a spatial object of dimension 3 but no group. -/
def plainSpatialObject : LightObject :=
  { address := 3, nameOfClass := "SpatialObject"
    classes :=
      [{ name := "SpatialObject", templateArguments := [3] },
       { name := "Object", templateArguments := [] },
       { name := "LightObject", templateArguments := [] }] }

end Example

/-! Theorems: numeric traits of RGB pixels -/

section RGBPixelTraits

open NumericTraitsRGBPixel

variable {T L : Type}

/-- C1: for every RGB pixel `m` and every length `s`, `SetLength(m, s)` returns
if and only if `s = 3`; when it returns, `m` holds the element type's zero in
each of its three components; when `s` is not 3 it throws the exception that
says the size cannot be set, the spec's `SizeMismatch`. -/
theorem SetLength_succeeds_iff_three (traits : NumericTraits T) (m : RGBPixel T) (s : Nat) :
    ((∃ filled, SetLength traits m s = Except.ok filled) ↔ s = 3) ∧
    (∀ filled, SetLength traits m s = Except.ok filled →
      filled.red = traits.ZeroValue ∧ filled.green = traits.ZeroValue ∧
      filled.blue = traits.ZeroValue ∧ ∀ i, filled.get i = traits.ZeroValue) ∧
    (s ≠ 3 → SetLength traits m s = Except.error SizeMismatch) := by
  by_cases hs : s = 3
  · subst hs
    refine ⟨⟨fun _ => rfl, fun _ => ⟨_, rfl⟩⟩, ?_, fun h => absurd rfl h⟩
    intro filled hfilled
    have hval : filled = m.Fill traits.ZeroValue := by
      simpa [SetLength] using hfilled.symm
    subst hval
    refine ⟨rfl, rfl, rfl, ?_⟩
    intro i
    fin_cases i <;> rfl
  · have herr : SetLength traits m s = Except.error SizeMismatch := by
      simp [SetLength, hs]
    refine ⟨⟨?_, fun h => absurd h hs⟩, ?_, fun _ => herr⟩
    · rintro ⟨filled, hfilled⟩
      rw [herr] at hfilled
      cases hfilled
    · intro filled hfilled
      rw [herr] at hfilled
      cases hfilled

/-- C2: `GetLength` returns 3 for every RGB pixel, and so does the overload
without a pixel; the answer is the same after any sequence of earlier
`SetLength` calls on the pixel, whether they returned or threw. -/
theorem GetLength_always_three (traits : NumericTraits T) (m : RGBPixel T)
    (lengths : List Nat) :
    GetLengthOf m = 3 ∧
    NumericTraitsRGBPixel.GetLength = 3 ∧
    (∀ s, GetLengthOf (afterSetLength traits m s) = 3) ∧
    GetLengthOf (lengths.foldl (afterSetLength traits) m) = 3 :=
  ⟨rfl, rfl, fun _ => rfl, rfl⟩

/-- C3: for every element type, the RGB trait values `max()`, `min()`,
`NonpositiveMin()`, `ZeroValue()` and `OneValue()` are the pixels whose three
components all equal the element type's own max, min, NonpositiveMin, zero and
one; the overloads that take a pixel return the same value whatever the
pixel. -/
theorem trait_values_componentwise (traits : NumericTraits T) (v : RGBPixel T) :
    (∀ i, (NumericTraitsRGBPixel.max traits).get i = traits.max) ∧
    (∀ i, (NumericTraitsRGBPixel.min traits).get i = traits.min) ∧
    (∀ i, (NumericTraitsRGBPixel.NonpositiveMin traits).get i = traits.NonpositiveMin) ∧
    (∀ i, (NumericTraitsRGBPixel.ZeroValue traits).get i = traits.ZeroValue) ∧
    (∀ i, (NumericTraitsRGBPixel.OneValue traits).get i = traits.OneValue) ∧
    maxOf traits v = NumericTraitsRGBPixel.max traits ∧
    minOf traits v = NumericTraitsRGBPixel.min traits ∧
    NonpositiveMinOf traits v = NumericTraitsRGBPixel.NonpositiveMin traits ∧
    ZeroValueOf traits v = NumericTraitsRGBPixel.ZeroValue traits ∧
    OneValueOf traits v = NumericTraitsRGBPixel.OneValue traits := by
  refine ⟨?_, ?_, ?_, ?_, ?_, rfl, rfl, rfl, rfl, rfl⟩ <;>
    intro i <;> fin_cases i <;> rfl

/-- C9: for every RGB pixel `v`, each of `IsPositive`, `IsNonpositive`,
`IsNegative` and `IsNonnegative` is the predicate of that name of the luminance
type's traits, applied to the one scalar `v.GetLuminance()`; the components
enter only through the luminance, so two pixels of equal luminance get the same
four answers. -/
theorem sign_predicates_through_luminance (lumTraits : NumericTraits L)
    (GetLuminance : RGBPixel T → L) (v : RGBPixel T) :
    IsPositive lumTraits GetLuminance v = lumTraits.IsPositive (GetLuminance v) ∧
    IsNonpositive lumTraits GetLuminance v = lumTraits.IsNonpositive (GetLuminance v) ∧
    IsNegative lumTraits GetLuminance v = lumTraits.IsNegative (GetLuminance v) ∧
    IsNonnegative lumTraits GetLuminance v = lumTraits.IsNonnegative (GetLuminance v) ∧
    (∀ w, GetLuminance w = GetLuminance v →
      IsPositive lumTraits GetLuminance w = IsPositive lumTraits GetLuminance v ∧
      IsNonpositive lumTraits GetLuminance w = IsNonpositive lumTraits GetLuminance v ∧
      IsNegative lumTraits GetLuminance w = IsNegative lumTraits GetLuminance v ∧
      IsNonnegative lumTraits GetLuminance w = IsNonnegative lumTraits GetLuminance v) := by
  refine ⟨rfl, rfl, rfl, rfl, ?_⟩
  intro w hw
  simp [IsPositive, IsNonpositive, IsNegative, IsNonnegative, hw]

end RGBPixelTraits

/-! Theorems: the binary shape-opening filter -/

section ShapeOpening

variable {P : Type}

/-- C4: a freshly constructed filter has the background value
`NonpositiveMin()` of the pixel type, the foreground value `max()` of the pixel
type, `fullyConnected` and `reverseOrdering` both false, `lambda` 0.0 and the
attribute `NUMBER_OF_PIXELS`. -/
theorem constructor_defaults (traits : NumericTraits P) (attrs : ShapeLabelObjectAttributes)
    (base : ImageToImageFilter P) :
    let fresh := BinaryShapeOpeningImageFilter.BinaryShapeOpeningImageFilter traits attrs base
    fresh.m_BackgroundValue = traits.NonpositiveMin ∧
    fresh.m_ForegroundValue = traits.max ∧
    fresh.m_FullyConnected = false ∧
    fresh.m_ReverseOrdering = false ∧
    fresh.m_Lambda = 0 ∧
    fresh.m_Attribute = attrs.NUMBER_OF_PIXELS :=
  ⟨rfl, rfl, rfl, rfl, rfl, rfl⟩

/-- C5: for a filter whose input is set, whatever region `requested` the output
asks for, after `GenerateInputRequestedRegion` the input is still set, its
requested region is its largest possible region, and its largest possible
region is what it was. -/
theorem input_requested_region_is_largest (self : BinaryShapeOpeningImageFilter P)
    (input : Image P) (requested : ImageRegion) (hinput : self.input = some input) :
    let before : BinaryShapeOpeningImageFilter P :=
      { self with output := self.output.SetRequestedRegion requested }
    ∃ after, before.GenerateInputRequestedRegion.input = some after ∧
      after.requestedRegion = input.largestPossibleRegion ∧
      after.requestedRegion = after.largestPossibleRegion ∧
      after.largestPossibleRegion = input.largestPossibleRegion := by
  intro before
  refine ⟨{ input with requestedRegion := input.largestPossibleRegion }, ?_, rfl, rfl, rfl⟩
  simp [before, BinaryShapeOpeningImageFilter.GenerateInputRequestedRegion,
    ImageToImageFilter.GenerateInputRequestedRegion, hinput, Image.SetRequestedRegion,
    Image.GetLargestPossibleRegion, Image.GetRequestedRegion]

/-- C8: `GenerateData` adds exactly four registrations to the accumulator, in
the order labelizer, valuator, opening, binarizer, with the `float` weights
`.3f`, `.3f`, `.2f` and `.2f`; the decimal weights 0.3, 0.3, 0.2 and 0.2 sum to
exactly 1, and so do the four `float` weights when added in `float` in that
order, which is the progress a fresh accumulator reports on completion. -/
theorem progress_weights_registered (attrs : ShapeLabelObjectAttributes)
    (env : Collaborators P) (fresh : MiniPipeline P) (self : BinaryShapeOpeningImageFilter P) :
    let progress := (self.GenerateData attrs env fresh).2.progress
    let registered : List FilterRecord :=
      [{ filter := InternalFilter.labelizer, weight := Float32.ofRatio 3 10 },
       { filter := InternalFilter.valuator, weight := Float32.ofRatio 3 10 },
       { filter := InternalFilter.opening, weight := Float32.ofRatio 2 10 },
       { filter := InternalFilter.binarizer, weight := Float32.ofRatio 2 10 }]
    progress.filterRecords = fresh.progress.filterRecords ++ registered ∧
    registered.length = 4 ∧
    ((3 : ℚ) / 10 + 3 / 10 + 2 / 10 + 2 / 10 = 1) ∧
    (registered.map FilterRecord.weight).foldl Float32.add Float32.zero = Float32.one ∧
    (fresh.progress.filterRecords = [] → progress.completedProgress = Float32.one) := by
  intro progress registered
  have hrec : progress.filterRecords = fresh.progress.filterRecords ++ registered := by
    simp [progress, registered, BinaryShapeOpeningImageFilter.GenerateData,
      ProgressAccumulator.RegisterInternalFilter, ProgressAccumulator.SetMiniPipelineFilter]
  have hsum : (registered.map FilterRecord.weight).foldl Float32.add Float32.zero
      = Float32.one := by decide
  refine ⟨hrec, rfl, by norm_num, hsum, ?_⟩
  intro hempty
  rw [ProgressAccumulator.completedProgress, hrec, hempty, List.nil_append]
  exact hsum

/-- C12: the mini-pipeline that `GenerateData` runs has a binarizer set up
with the filter's own `foregroundValue` and `backgroundValue`, with the filter's
input image as its background image, reading the opening stage's output and
holding the filter's allocated output as its own; the image the filter has as
its output afterwards is the binarizer's output, which is what the run of that
mini-pipeline produced, and the filter's input and parameters are as before. -/
theorem binarizer_stage_and_published_output (attrs : ShapeLabelObjectAttributes)
    (env : Collaborators P) (fresh : MiniPipeline P) (self : BinaryShapeOpeningImageFilter P) :
    let result := self.GenerateData attrs env fresh
    result.2.binarizer.m_ForegroundValue = self.m_ForegroundValue ∧
    result.2.binarizer.m_BackgroundValue = self.m_BackgroundValue ∧
    result.2.binarizer.backgroundImage = self.input ∧
    result.2.binarizer.input = some InternalFilter.opening ∧
    result.1.output = result.2.binarizer.output ∧
    (∃ configured : MiniPipeline P,
      configured.binarizer.m_ForegroundValue = self.m_ForegroundValue ∧
      configured.binarizer.m_BackgroundValue = self.m_BackgroundValue ∧
      configured.binarizer.backgroundImage = self.input ∧
      configured.binarizer.input = some InternalFilter.opening ∧
      configured.binarizer.output = env.AllocateOutputs self.output ∧
      result.2.binarizer.output = env.Update configured) ∧
    result.1.input = self.input ∧
    result.1.m_ForegroundValue = self.m_ForegroundValue ∧
    result.1.m_BackgroundValue = self.m_BackgroundValue := by
  intro result
  refine ⟨rfl, rfl, rfl, rfl, rfl, ?_, rfl, rfl, rfl⟩
  exact ⟨{ result.2 with
            binarizer := { result.2.binarizer with output := env.AllocateOutputs self.output } },
    rfl, rfl, rfl, rfl, rfl, rfl⟩

end ShapeOpening

/-! Theorems: group spatial objects -/

section Clone

open GroupSpatialObject

/-- C10: when the superclass's `InternalClone` returns a pointer, then
`GroupSpatialObject::InternalClone` returns that very pointer whenever its
object downcasts to `GroupSpatialObject`, and otherwise (a null pointer, or an
object of another class) it returns nothing and throws the exception that says
the downcast failed, the spec's `DowncastFailure`. -/
theorem InternalClone_returns_clone_or_fails (TDimension : Nat)
    (Superclass_InternalClone : LightObject → Except ExceptionObject LightObject.Pointer)
    (this : LightObject) (loPtr : LightObject.Pointer)
    (hsuper : Superclass_InternalClone this = Except.ok loPtr) :
    (∀ obj, loPtr = some obj → Self TDimension ∈ obj.classes →
      InternalClone TDimension Superclass_InternalClone this = Except.ok (some obj)) ∧
    ((loPtr = none ∨ ∃ obj, loPtr = some obj ∧ Self TDimension ∉ obj.classes) →
      InternalClone TDimension Superclass_InternalClone this
        = Except.error (DowncastFailure this)) ∧
    (∀ result, InternalClone TDimension Superclass_InternalClone this = Except.ok result →
      result = loPtr ∧ (dynamic_cast TDimension loPtr).isSome = true) := by
  refine ⟨?_, ?_, ?_⟩
  · intro obj hobj hclass
    subst hobj
    simp [InternalClone, hsuper, dynamic_cast, hclass]
  · rintro (hnull | ⟨obj, hobj, hclass⟩)
    · subst hnull
      simp [InternalClone, hsuper, dynamic_cast]
    · subst hobj
      simp [InternalClone, hsuper, dynamic_cast, hclass]
  · intro result hresult
    simp only [InternalClone, hsuper] at hresult
    split at hresult
    · cases hresult
    · rename_i hsome
      cases hresult
      refine ⟨rfl, ?_⟩
      cases hcast : dynamic_cast TDimension loPtr with
      | none => simp [hcast] at hsome
      | some _ => rfl

end Clone

/-! Concrete instances -/

section Witnesses

open GroupSpatialObject

/-- Instance of C5: the example filter's input asks for a 2 x 2 region and its
output for a 1 x 1 region; afterwards the input asks for its whole 4 x 4
extent. -/
theorem input_requested_region_is_largest_witness :
    Example.filter.input = some Example.inputImage ∧
    (let before : BinaryShapeOpeningImageFilter Nat :=
      { Example.filter with
        output := Example.filter.output.SetRequestedRegion { index := [3, 3], size := [1, 1] } }
     ∃ after, before.GenerateInputRequestedRegion.input = some after ∧
      after.requestedRegion = Example.inputImage.largestPossibleRegion ∧
      after.requestedRegion = after.largestPossibleRegion ∧
      after.largestPossibleRegion = Example.inputImage.largestPossibleRegion) ∧
    Example.filter.GenerateInputRequestedRegion.input.map Image.GetRequestedRegion
      = some { index := [0, 0], size := [4, 4] } :=
  ⟨rfl,
   input_requested_region_is_largest Example.filter Example.inputImage
     { index := [3, 3], size := [1, 1] } rfl,
   by decide⟩

/-- Instance of C10: cloning a group of dimension 3 returns the superclass's
clone when that is a group of dimension 3, and throws when it is a plain
spatial object. -/
theorem InternalClone_returns_clone_or_fails_witness :
    InternalClone 3 (fun _ => Except.ok (some Example.groupClone)) Example.group
      = Except.ok (some Example.groupClone) ∧
    InternalClone 3 (fun _ => Except.ok (some Example.plainSpatialObject)) Example.group
      = Except.error { description := "downcast to type GroupSpatialObject failed." } :=
  ⟨(InternalClone_returns_clone_or_fails 3 (fun _ => Except.ok (some Example.groupClone))
      Example.group (some Example.groupClone) rfl).1 Example.groupClone rfl (by decide),
   (InternalClone_returns_clone_or_fails 3
      (fun _ => Except.ok (some Example.plainSpatialObject))
      Example.group (some Example.plainSpatialObject) rfl).2.1
      (Or.inr ⟨Example.plainSpatialObject, rfl, by decide⟩)⟩

/-- Instance of C12: for the example filter the binarizer gets foreground 255,
background 0 and the 4 x 4 input image as background image, and the filter's
output afterwards is the binarizer's output, here the allocated output
image. -/
theorem binarizer_stage_and_published_output_witness :
    (let result := Example.filter.GenerateData Example.attrs Example.env Example.fresh
     result.2.binarizer.m_ForegroundValue = 255 ∧
     result.2.binarizer.m_BackgroundValue = 0 ∧
     result.2.binarizer.backgroundImage = some Example.inputImage ∧
     result.1.output = result.2.binarizer.output ∧
     result.1.output = Example.env.AllocateOutputs Example.outputImage) :=
  have h := binarizer_stage_and_published_output Example.attrs Example.env Example.fresh
    Example.filter
  ⟨h.1, h.2.1, h.2.2.1, h.2.2.2.2.1, by decide⟩

/-- The four `float` weights as exact rationals: `.3f` and `.2f` lie within
half a unit in the last place of 0.3 and 0.2, and their exact sum exceeds 1 by
`2 ^ (-25)`, which a `float` sum rounds away. -/
theorem float_weights_exact :
    (Float32.ofRatio 3 10).toRat = 10066330 / 2 ^ 25 ∧
    (Float32.ofRatio 2 10).toRat = 13421773 / 2 ^ 26 ∧
    |(Float32.ofRatio 3 10).toRat - 3 / 10| ≤ 1 / 2 ^ 26 ∧
    |(Float32.ofRatio 2 10).toRat - 2 / 10| ≤ 1 / 2 ^ 27 ∧
    Float32.one.toRat = 1 ∧
    (Float32.ofRatio 3 10).toRat + (Float32.ofRatio 3 10).toRat +
      (Float32.ofRatio 2 10).toRat + (Float32.ofRatio 2 10).toRat = 1 + 1 / 2 ^ 25 := by
  have h3 : Float32.ofRatio 3 10 = { mantissa := 10066330, exponent := -25 } := by decide
  have h2 : Float32.ofRatio 2 10 = { mantissa := 13421773, exponent := -26 } := by decide
  have h1 : Float32.one = { mantissa := 8388608, exponent := -23 } := by decide
  rw [h3, h2, h1]
  simp only [Float32.toRat]
  refine ⟨?_, ?_, ?_, ?_, ?_, ?_⟩
  · norm_num [zpow_neg]
  · norm_num [zpow_neg]
  · rw [abs_le]; constructor <;> norm_num [zpow_neg]
  · rw [abs_le]; constructor <;> norm_num [zpow_neg]
  · norm_num [zpow_neg]
  · norm_num [zpow_neg]

end Witnesses

end itk
